import Mathlib

/-!
Verification of the NWS warnings sensor (src/sensor.py).

Shallow embedding conventions:
- Python None of type str is Option String none; a Python str value s is some s.
- Python truthiness of an optional string is: none and some "" are falsy.
- Latitude and longitude floats are modelled as rationals; Python truthiness of
  an optional number is: none and some 0 are falsy.
- A Python dict from str to str is an association list built by dictInsert,
  which models d[k] = v (replace the binding in place, else append), keeping
  insertion order exactly as a Python dict does.
- Local wall-clock datetimes are modelled as a calendar day index plus a
  second-of-day, both integers; a timestamp in local epoch seconds is
  day * 86400 + secOfDay. The function isoformat is the rendering of such a
  timestamp as a string (the concrete ISO-8601 text is abstracted, but the
  rendering is injective on distinct timestamps and never empty).
- The aiohttp session and the surrounding event loop are external; one call of
  async_update is modelled as a pure function of the configuration, the zone
  registry answer, the current local time, the fetch outcome and the prior
  entity state, returning the outcome flag, the new entity state and the HTTP
  request that was issued (none when the refresh aborted before any request).
-/

/-- Constant USER_AGENT from sensor.py. -/
def USER_AGENT : String := "Home Assistant"

/-- Constant NWS_API_ENDPOINT from sensor.py. -/
def NWS_API_ENDPOINT : String := "https://api.weather.gov/alerts"

/-- Python str.join with a comma, as used for severity and message_type. -/
def joinComma (xs : List String) : String := String.intercalate "," xs

/-- Truthiness of an optional Python string: None and the empty string are falsy. -/
def strOptTruthy : Option String → Bool
  | none => false
  | some s => s != ""

/-- Truthiness of an optional Python number: None and zero are falsy. -/
def ratOptTruthy : Option ℚ → Bool
  | none => false
  | some x => x != 0

/-- Truthiness of an optional Python int: None and zero are falsy. -/
def natOptTruthy : Option ℕ → Bool
  | none => false
  | some n => n != 0

/-- Python d[k] = v on an association list: replace the first binding of k in
place, otherwise append the new binding at the end. -/
def dictInsert : List (String × String) → String → String → List (String × String)
  | [], k, v => [(k, v)]
  | p :: rest, k, v => if p.1 = k then (k, v) :: rest else p :: dictInsert rest k v

/-- Lookup of a key in an association list, first binding wins. -/
def dictLookup : List (String × String) → String → Option String
  | [], _ => none
  | p :: rest, k => if p.1 = k then some p.2 else dictLookup rest k

/-- Key membership in an association list. -/
def hasKey (d : List (String × String)) (k : String) : Bool :=
  (dictLookup d k).isSome

/-- Function _get_headers of sensor.py. -/
def _get_headers : List (String × String) :=
  [("User-Agent", USER_AGENT), ("Accept", "application/geo+json")]

/-- The point query value, the %s,%s formatting of latitude and longitude. -/
def pointParam (latitude longitude : ℚ) : String :=
  toString latitude ++ "," ++ toString longitude

/-- Function _get_query_params of sensor.py: note the first argument is the
already comma-joined severity string and the second the message types. -/
def _get_query_params (severity message_type : String) (latitude longitude : ℚ) :
    List (String × String) :=
  [("message_type", message_type), ("severity", severity),
   ("point", pointParam latitude longitude)]

/-- Function _append_time_params of sensor.py: the start and end strings are
stored under keys start and end only when both are truthy. -/
def _append_time_params (params : List (String × String)) (startS endS : String) :
    List (String × String) :=
  if startS != "" && endS != "" then
    dictInsert (dictInsert params "start" startS) "end" endS
  else params

/-- The properties field of a GeoJSON feature, restricted to the two fields the
sensor reads; a missing field is none. -/
structure FeatureProperties where
  headline : Option String
  sent : Option String
  deriving DecidableEq

/-- One feature of the response; a feature without a properties object yields
none for both fields, as feature.get defaults to an empty dict. -/
structure Feature where
  properties : Option FeatureProperties
  deriving DecidableEq

/-- Extraction of properties.headline with the chained .get defaulting. -/
def featHeadline (f : Feature) : Option String :=
  f.properties.bind FeatureProperties.headline

/-- Extraction of properties.sent with the chained .get defaulting. -/
def featSent (f : Feature) : Option String :=
  f.properties.bind FeatureProperties.sent

/-- The loop condition if update and sent of async_update: both extracted
values are truthy Python strings. -/
def completeFeature (f : Feature) : Bool :=
  strOptTruthy (featHeadline f) && strOptTruthy (featSent f)

/-- One iteration of the feature loop in async_update: the accumulator holds
the running state (None until a headline is chosen) and the updates dict. -/
def featureStep (acc : Option String × List (String × String)) (f : Feature) :
    Option String × List (String × String) :=
  if completeFeature f then
    ((if strOptTruthy acc.1 then acc.1 else featHeadline f),
     dictInsert acc.2 ((featSent f).getD "") ((featHeadline f).getD ""))
  else acc

/-- Python x or d for an optional string x: the default d when x is falsy. -/
def pyOrStr (x : Option String) (d : String) : String :=
  match x with
  | none => d
  | some s => if s = "" then d else s

/-- The whole projection of the feature list done by async_update on a 200
response: the loop starting from (None, empty dict), then state or a blank. -/
def processFeatures (feats : List Feature) : String × List (String × String) :=
  (pyOrStr (feats.foldl featureStep (none, [])).1 " ",
   (feats.foldl featureStep (none, [])).2)

/-- The location mapping of the configuration, fields read with .get. -/
structure Location where
  latitude : Option ℚ
  longitude : Option ℚ
  deriving DecidableEq

/-- The latitude and longitude attributes of a zone state object; a missing
attribute is none. -/
structure ZoneAttributes where
  latitude : Option ℚ
  longitude : Option ℚ
  deriving DecidableEq

/-- The validated configuration consumed by NWSWarningsEntity as the entity
stores it: severity and message_type still as lists (the constructor joins
them), zone and location mutually exclusive, forecast_days optional. -/
structure EntityConfig where
  name : String
  icon : String
  severity : List String
  message_type : List String
  zone : Option String
  location : Option Location
  forecast_days : Option ℕ
  deriving DecidableEq

/-- Mutable display state of the entity: the state attribute (None possible
for the Python value, though only transiently inside a poll) and the updates
mapping exposed under the updates attribute. -/
structure EntityState where
  state : Option String
  updates : List (String × String)
  deriving DecidableEq

/-- State set by the constructor: state is the empty string and updates the
empty container. -/
def initEntityState : EntityState := ⟨some "", []⟩

/-- Method _get_zone_lat_long: the zone registry answer is none when the zone
is absent; then the two attributes are read and checked for truthiness. -/
def _get_zone_lat_long (zoneState : Option ZoneAttributes) : Option ℚ × Option ℚ :=
  match zoneState with
  | none => (none, none)
  | some zone =>
    if !ratOptTruthy zone.latitude || !ratOptTruthy zone.longitude then (none, none)
    else (zone.latitude, zone.longitude)

/-- Coordinate resolution at the top of async_update: a configured location
wins, else a configured zone is looked up, else nothing. -/
def resolveCoordinates (cfg : EntityConfig) (zoneState : Option ZoneAttributes) :
    Option ℚ × Option ℚ :=
  match cfg.location with
  | some loc => (loc.latitude, loc.longitude)
  | none =>
    match cfg.zone with
    | some _ => _get_zone_lat_long zoneState
    | none => (none, none)

/-- Seconds in one day. -/
def secondsPerDay : ℤ := 86400

/-- A local wall-clock instant: calendar day index and second of day. -/
structure LocalTime where
  day : ℤ
  secOfDay : ℤ
  deriving DecidableEq

/-- Local midnight of the current day, in local epoch seconds. -/
def localMidnight (now : LocalTime) : ℤ := now.day * secondsPerDay

/-- The start datetime computed by async_update: now is shifted back by one
day, then truncated to midnight of that (previous) calendar day. -/
def computeStart (now : LocalTime) : ℤ := (now.day - 1) * secondsPerDay

/-- The end datetime computed by async_update: start plus forecast_days + 1
days. -/
def computeEnd (start : ℤ) (forecast_days : ℕ) : ℤ :=
  start + ((forecast_days : ℤ) + 1) * secondsPerDay

/-- Rendering of a local timestamp as the isoformat string; the concrete
ISO-8601 text is abstracted into the decimal rendering of the timestamp. -/
def isoformat (t : ℤ) : String := toString t

/-- Negation of the active_only flag, i.e. forecast mode is on: the entity
sets active_only to the negated truthiness of forecast_days. -/
def forecastMode (cfg : EntityConfig) : Bool := natOptTruthy cfg.forecast_days

/-- Query parameters of the issued request: the base parameters, extended with
the start and end window exactly when forecast mode is on. -/
def requestParams (cfg : EntityConfig) (now : LocalTime) (lat lon : ℚ) :
    List (String × String) :=
  if forecastMode cfg then
    _append_time_params
      (_get_query_params (joinComma cfg.severity) (joinComma cfg.message_type) lat lon)
      (isoformat (computeStart now))
      (isoformat (computeEnd (computeStart now) (cfg.forecast_days.getD 0)))
  else _get_query_params (joinComma cfg.severity) (joinComma cfg.message_type) lat lon

/-- URL of the issued request: the active suffix exactly when not in forecast
mode. -/
def requestUrl (cfg : EntityConfig) : String :=
  if forecastMode cfg then NWS_API_ENDPOINT else NWS_API_ENDPOINT ++ "/active"

/-- The HTTP request: url, query parameters and headers. -/
structure Request where
  url : String
  params : List (String × String)
  headers : List (String × String)
  deriving DecidableEq

/-- The request built by async_update once coordinates are resolved. -/
def buildRequest (cfg : EntityConfig) (now : LocalTime) (lat lon : ℚ) : Request :=
  ⟨requestUrl cfg, requestParams cfg now lat lon, _get_headers⟩

/-- The body of a response: the features array is none when the key is absent
(json.get with an empty default). -/
structure ResponseBody where
  features : Option (List Feature)
  deriving DecidableEq

/-- Outcome of the awaited GET: a timeout (asyncio.TimeoutError), a transport
error (aiohttp.ClientError), or a completed response with status and body. -/
inductive FetchResult where
  | timeout
  | clientError
  | response (status : ℕ) (body : ResponseBody)
  deriving DecidableEq

/-- Result of one call of async_update: the returned boolean, the entity state
afterwards, and the request that was issued (none when none was). -/
structure RefreshResult where
  outcome : Bool
  st : EntityState
  request : Option Request
  deriving DecidableEq

/-- Method async_update of NWSWarningsEntity (one unthrottled call): resolve
coordinates, guard their truthiness, build the request, and fold the fetch
outcome into the state. -/
def async_update (cfg : EntityConfig) (zoneState : Option ZoneAttributes)
    (now : LocalTime) (fetch : FetchResult) (st : EntityState) : RefreshResult :=
  match resolveCoordinates cfg zoneState with
  | (some lat, some lon) =>
    if lat = 0 ∨ lon = 0 then ⟨false, st, none⟩
    else
      match fetch with
      | .timeout => ⟨false, st, some (buildRequest cfg now lat lon)⟩
      | .clientError => ⟨false, st, some (buildRequest cfg now lat lon)⟩
      | .response status body =>
        if status = 200 then
          ⟨true,
           ⟨some (processFeatures (body.features.getD [])).1,
            (processFeatures (body.features.getD [])).2⟩,
           some (buildRequest cfg now lat lon)⟩
        else ⟨false, st, some (buildRequest cfg now lat lon)⟩
  | _ => ⟨false, st, none⟩

/-- Constant MIN_TIME_BETWEEN_UPDATES from sensor.py, in seconds. -/
def MIN_TIME_BETWEEN_UPDATES : ℤ := 5 * 60

/-- State kept by the throttle gate: the wall-clock time of the last call that
went through, none before any call. -/
structure ThrottleState where
  lastCall : Option ℤ
  deriving DecidableEq

/-- Modelled from the spec: the minimum-interval throttle around async_update
(the Throttle decorator of homeassistant.util is outside this repository).
Per the spec, the gate stores the last-invocation timestamp, compares against
the configured minimum interval, and short-circuits to a no-op (no network
access, prior state returned, here the none outcome) when the interval has not
elapsed; otherwise it records the invocation time and runs async_update. -/
def throttledUpdate (cfg : EntityConfig) (zoneState : Option ZoneAttributes)
    (nowWall : ℤ) (now : LocalTime) (fetch : FetchResult)
    (ts : ThrottleState) (st : EntityState) :
    ThrottleState × EntityState × Option (Bool × Option Request) :=
  let allowed :=
    match ts.lastCall with
    | none => true
    | some t0 => decide (MIN_TIME_BETWEEN_UPDATES ≤ nowWall - t0)
  if allowed then
    let r := async_update cfg zoneState now fetch st
    (⟨some nowWall⟩, r.st, some (r.outcome, r.request))
  else (ts, st, none)

/-- A forecast-mode configuration with a static location, for concrete runs. -/
def cfgC1 : EntityConfig :=
  ⟨"NWS Warnings", "mdi:alert", ["severe", "extreme"], ["alert"], none,
   some ⟨some 1, some 2⟩, some 2⟩

/-- A concrete local instant: day index 10, one hour past midnight. -/
def nowC1 : LocalTime := ⟨10, 3600⟩

/-- An active-only configuration with a static location, for concrete runs. -/
def cfgActive : EntityConfig :=
  ⟨"NWS Warnings", "mdi:alert", ["moderate", "severe", "extreme"], ["alert", "update"],
   none, some ⟨some 1, some 2⟩, none⟩

/-- A zone-based configuration (no static location), for concrete runs. -/
def cfgZone : EntityConfig :=
  ⟨"NWS Warnings", "mdi:alert", ["severe"], ["alert"], some "zone.home", none, none⟩

/-- A configuration whose static location has latitude zero. -/
def cfgZeroLat : EntityConfig :=
  ⟨"NWS Warnings", "mdi:alert", ["severe"], ["alert"], none, some ⟨some 0, some 2⟩, none⟩

/-- A prior snapshot established by an earlier successful poll. -/
def stX : EntityState := ⟨some "Tornado Warning", [("t1", "Tornado Warning")]⟩

/-- A feature whose headline is present but the empty string. -/
def c6f1 : Feature := ⟨some ⟨some "", some "t1"⟩⟩

/-- A complete feature with headline B. -/
def c6f2 : Feature := ⟨some ⟨some "B", some "t2"⟩⟩

/-- An incomplete feature: sent present, headline absent. -/
def wIncomplete : Feature := ⟨some ⟨none, some "t0"⟩⟩

/-- A complete feature with headline A and timestamp t1. -/
def wFeatA : Feature := ⟨some ⟨some "A", some "t1"⟩⟩

/-- A complete feature with headline B and timestamp t2. -/
def wFeatB : Feature := ⟨some ⟨some "B", some "t2"⟩⟩

/-! Helper lemmas. -/

theorem toDigitsCore_cons_ne_nil (b : ℕ) : ∀ (f n : ℕ) (c : Char) (tl : List Char),
    Nat.toDigitsCore b f n (c :: tl) ≠ [] := by
  intro f
  induction f with
  | zero => intro n c tl; simp [Nat.toDigitsCore]
  | succ f ih =>
    intro n c tl
    simp only [Nat.toDigitsCore]
    split
    · simp
    · exact ih _ _ _

theorem natRepr_ne_empty (n : ℕ) : Nat.repr n ≠ "" := by
  unfold Nat.repr Nat.toDigits
  simp only [Nat.toDigitsCore]
  split
  · intro h
    have := congrArg String.data h
    simp [List.asString] at this
  · intro h
    have := congrArg String.data h
    simp [List.asString] at this
    exact toDigitsCore_cons_ne_nil _ _ _ _ _ this

theorem intRepr_ne_empty (t : ℤ) : Int.repr t ≠ "" := by
  cases t with
  | ofNat m => exact natRepr_ne_empty m
  | negSucc m =>
    intro h
    have := congrArg String.length h
    rw [Int.repr] at this
    simp [String.length_append] at this
    exact absurd this.1 (by decide)

theorem isoformat_ne_empty (t : ℤ) : isoformat t ≠ "" := intRepr_ne_empty t

theorem dictLookup_dictInsert_self (d : List (String × String)) (k v : String) :
    dictLookup (dictInsert d k v) k = some v := by
  induction d with
  | nil => simp [dictInsert, dictLookup]
  | cons p rest ih =>
    by_cases h : p.1 = k <;> simp [dictInsert, dictLookup, h, ih]

theorem dictLookup_dictInsert_ne (d : List (String × String)) (k v k' : String)
    (h : k' ≠ k) : dictLookup (dictInsert d k v) k' = dictLookup d k' := by
  induction d with
  | nil => simp [dictInsert, dictLookup, Ne.symm h]
  | cons p rest ih =>
    by_cases hp : p.1 = k
    · subst hp
      simp [dictInsert, dictLookup, Ne.symm h]
    · simp [dictInsert, dictLookup, hp, ih]

theorem hasKey_dictInsert (d : List (String × String)) (k v k' : String) :
    hasKey (dictInsert d k v) k' = ((k' == k) || hasKey d k') := by
  by_cases h : k' = k
  · subst h; simp [hasKey, dictLookup_dictInsert_self]
  · simp [hasKey, dictLookup_dictInsert_ne d k v k' h, h]

theorem strOptTruthy_iff (x : Option String) :
    strOptTruthy x = true ↔ ∃ s, x = some s ∧ s ≠ "" := by
  cases x <;> simp [strOptTruthy]

theorem featureStep_incomplete (acc : Option String × List (String × String))
    (f : Feature) (hf : completeFeature f = false) : featureStep acc f = acc := by
  simp [featureStep, hf]

theorem featureStep_fst_truthy (acc : Option String × List (String × String))
    (f : Feature) (h : strOptTruthy acc.1 = true) : (featureStep acc f).1 = acc.1 := by
  by_cases hf : completeFeature f <;> simp [featureStep, hf, h]

theorem foldl_featureStep_incomplete (fs : List Feature) :
    ∀ acc, (∀ g ∈ fs, completeFeature g = false) → fs.foldl featureStep acc = acc := by
  induction fs with
  | nil => intro acc _; rfl
  | cons f fs ih =>
    intro acc h
    rw [List.foldl_cons, featureStep_incomplete _ _ (h f (by simp))]
    exact ih acc fun g hg => h g (by simp [hg])

theorem foldl_featureStep_fst_truthy (fs : List Feature) :
    ∀ acc, strOptTruthy acc.1 = true → (fs.foldl featureStep acc).1 = acc.1 := by
  induction fs with
  | nil => intro acc _; rfl
  | cons f fs ih =>
    intro acc h
    rw [List.foldl_cons,
        ih _ (by rw [featureStep_fst_truthy acc f h]; exact h)]
    exact featureStep_fst_truthy acc f h

theorem featureStep_hasKey (acc : Option String × List (String × String))
    (f : Feature) (k : String) (h : hasKey acc.2 k = true) :
    hasKey (featureStep acc f).2 k = true := by
  by_cases hf : completeFeature f <;> simp [featureStep, hf, hasKey_dictInsert, h]

theorem foldl_featureStep_hasKey (fs : List Feature) :
    ∀ acc k, hasKey acc.2 k = true → hasKey (fs.foldl featureStep acc).2 k = true := by
  induction fs with
  | nil => intro acc k h; exact h
  | cons f fs ih =>
    intro acc k h
    rw [List.foldl_cons]
    exact ih _ k (featureStep_hasKey acc f k h)

theorem foldl_featureStep_mem_hasKey (fs : List Feature) :
    ∀ acc, ∀ g ∈ fs, completeFeature g = true →
      hasKey (fs.foldl featureStep acc).2 ((featSent g).getD "") = true := by
  induction fs with
  | nil => intro _ g h; cases h
  | cons f fs ih =>
    intro acc g hg hc
    rw [List.foldl_cons]
    rcases List.mem_cons.mp hg with rfl | hmem
    · apply foldl_featureStep_hasKey
      simp [featureStep, hc, hasKey_dictInsert]
    · exact ih _ g hmem hc

theorem foldl_featureStep_key_src (fs : List Feature) :
    ∀ acc k, hasKey (fs.foldl featureStep acc).2 k = true →
      hasKey acc.2 k = true ∨
      ∃ g ∈ fs, completeFeature g = true ∧ (featSent g).getD "" = k := by
  induction fs with
  | nil => intro acc k h; exact Or.inl h
  | cons f fs ih =>
    intro acc k h
    rw [List.foldl_cons] at h
    rcases ih _ k h with h2 | ⟨g, hg, hc, hk⟩
    · by_cases hf : completeFeature f
      · rw [show (featureStep acc f).2
              = dictInsert acc.2 ((featSent f).getD "") ((featHeadline f).getD "")
            from by simp [featureStep, hf]] at h2
        rw [hasKey_dictInsert] at h2
        rcases Bool.or_eq_true_iff.mp h2 with hkk | hacc
        · refine Or.inr ⟨f, by simp, hf, ?_⟩
          have hk : k = (featSent f).getD "" := by simpa using hkk
          exact hk.symm
        · exact Or.inl hacc
      · rw [featureStep_incomplete _ _ (by simpa using hf)] at h2
        exact Or.inl h2
    · exact Or.inr ⟨g, by simp [hg], hc, hk⟩

theorem resolveCoordinates_location (cfg : EntityConfig) (zs : Option ZoneAttributes)
    (lat lon : ℚ) (hloc : cfg.location = some ⟨some lat, some lon⟩) :
    resolveCoordinates cfg zs = (some lat, some lon) := by
  simp [resolveCoordinates, hloc]

theorem async_update_success_eq (cfg : EntityConfig) (zs : Option ZoneAttributes)
    (now : LocalTime) (body : ResponseBody) (st : EntityState) (lat lon : ℚ)
    (hre : resolveCoordinates cfg zs = (some lat, some lon))
    (hlat : lat ≠ 0) (hlon : lon ≠ 0) :
    async_update cfg zs now (.response 200 body) st =
      ⟨true,
       ⟨some (processFeatures (body.features.getD [])).1,
        (processFeatures (body.features.getD [])).2⟩,
       some (buildRequest cfg now lat lon)⟩ := by
  simp [async_update, hre, hlat, hlon]

theorem async_update_request_eq (cfg : EntityConfig) (zs : Option ZoneAttributes)
    (now : LocalTime) (fetch : FetchResult) (st : EntityState) (lat lon : ℚ)
    (hre : resolveCoordinates cfg zs = (some lat, some lon))
    (hlat : lat ≠ 0) (hlon : lon ≠ 0) :
    (async_update cfg zs now fetch st).request = some (buildRequest cfg now lat lon) := by
  cases fetch with
  | timeout => simp [async_update, hre, hlat, hlon]
  | clientError => simp [async_update, hre, hlat, hlon]
  | response status body =>
    by_cases hs : status = 200 <;> simp [async_update, hre, hlat, hlon, hs]

/-! Claim theorems. -/

/-- C4: for every severity set S, message-type set M and coordinate pair, the
query builder output has exactly the keys message_type, severity and point,
bound to the comma-join of M, the comma-join of S and the lat,lon string, and
has no start or end key; the headers are exactly the identifying User-Agent
and the geo+json Accept value. -/
theorem c4_query_builder (S M : List String) (lat lon : ℚ) :
    (_get_query_params (joinComma S) (joinComma M) lat lon).map Prod.fst =
      ["message_type", "severity", "point"] ∧
    dictLookup (_get_query_params (joinComma S) (joinComma M) lat lon) "message_type"
      = some (joinComma M) ∧
    dictLookup (_get_query_params (joinComma S) (joinComma M) lat lon) "severity"
      = some (joinComma S) ∧
    dictLookup (_get_query_params (joinComma S) (joinComma M) lat lon) "point"
      = some (toString lat ++ "," ++ toString lon) ∧
    hasKey (_get_query_params (joinComma S) (joinComma M) lat lon) "start" = false ∧
    hasKey (_get_query_params (joinComma S) (joinComma M) lat lon) "end" = false ∧
    _get_headers = [("User-Agent", "Home Assistant"), ("Accept", "application/geo+json")] :=
  ⟨rfl, rfl, rfl, rfl, rfl, rfl, rfl⟩

/-- C2 counterexample: an entity that has never completed a successful poll
exposes the empty string as its state, not a non-empty placeholder, so the
claim is false at the freshly constructed entity. -/
theorem c2_counterexample : initEntityState.state = some "" := rfl

/-- C2 amended: an entity that has never completed a successful poll exposes
the empty string (a string, never the programmatic missing-value marker), and
after every successful poll in which no feature is complete the state equals
the single blank placeholder. -/
theorem c2_blank_state (cfg : EntityConfig) (zs : Option ZoneAttributes)
    (now : LocalTime) (st : EntityState) (body : ResponseBody)
    (hempty : ∀ f ∈ body.features.getD [], completeFeature f = false) :
    initEntityState.state = some "" ∧
    ((async_update cfg zs now (.response 200 body) st).outcome = true →
      (async_update cfg zs now (.response 200 body) st).st.state = some " ") := by
  refine ⟨rfl, ?_⟩
  intro hout
  rcases hre : resolveCoordinates cfg zs with ⟨olat, olon⟩
  cases olat with
  | none => simp [async_update, hre] at hout
  | some lat =>
    cases olon with
    | none => simp [async_update, hre] at hout
    | some lon =>
      by_cases hz : lat = 0 ∨ lon = 0
      · simp [async_update, hre, hz] at hout
      · push_neg at hz
        rw [async_update_success_eq cfg zs now body st lat lon hre hz.1 hz.2]
        simp [processFeatures, foldl_featureStep_incomplete _ _ hempty, pyOrStr]

/-- C3: a refresh whose fetch ends in a timeout, a transport error or a
non-200 HTTP status returns a failure outcome and leaves the exposed state and
the updates attribute exactly as they were. -/
theorem c3_failure_preserves_state (cfg : EntityConfig) (zs : Option ZoneAttributes)
    (now : LocalTime) (st : EntityState) (fetch : FetchResult)
    (h : fetch = .timeout ∨ fetch = .clientError ∨
         ∃ s b, fetch = .response s b ∧ s ≠ 200) :
    (async_update cfg zs now fetch st).outcome = false ∧
    (async_update cfg zs now fetch st).st = st := by
  rcases hre : resolveCoordinates cfg zs with ⟨olat, olon⟩
  cases olat with
  | none => rcases h with rfl | rfl | ⟨s, b, rfl, hs⟩ <;> simp [async_update, hre]
  | some lat =>
    cases olon with
    | none => rcases h with rfl | rfl | ⟨s, b, rfl, hs⟩ <;> simp [async_update, hre]
    | some lon =>
      by_cases hz : lat = 0 ∨ lon = 0
      · rcases h with rfl | rfl | ⟨s, b, rfl, hs⟩ <;> simp [async_update, hre, hz]
      · rcases h with rfl | rfl | ⟨s, b, rfl, hs⟩
        · simp [async_update, hre, hz]
        · simp [async_update, hre, hz]
        · simp [async_update, hre, hz, hs]

/-- C3 witness: at a concrete configuration, a 500 response after a snapshot
leaves that snapshot untouched and reports failure. -/
theorem c3_witness :
    (async_update cfgActive none nowC1 (.response 500 ⟨none⟩) stX).outcome = false ∧
    (async_update cfgActive none nowC1 (.response 500 ⟨none⟩) stX).st = stX :=
  c3_failure_preserves_state cfgActive none nowC1 stX (.response 500 ⟨none⟩)
    (Or.inr (Or.inr ⟨500, ⟨none⟩, rfl, by decide⟩))

/-- C2 witness: at a concrete configuration, a successful poll whose single
feature lacks a headline yields the blank placeholder state. -/
theorem c2_blank_state_witness :
    initEntityState.state = some "" ∧
    ((async_update cfgActive none nowC1 (.response 200 ⟨some [wIncomplete]⟩)
        stX).outcome = true →
      (async_update cfgActive none nowC1 (.response 200 ⟨some [wIncomplete]⟩)
        stX).st.state = some " ") :=
  c2_blank_state cfgActive none nowC1 stX ⟨some [wIncomplete]⟩ (by decide)

theorem requestParams_forecast (cfg : EntityConfig) (now : LocalTime) (lat lon : ℚ)
    (H : ℕ) (hH : cfg.forecast_days = some H) (h1 : 1 ≤ H) :
    requestParams cfg now lat lon =
      dictInsert (dictInsert
        (_get_query_params (joinComma cfg.severity) (joinComma cfg.message_type) lat lon)
        "start" (isoformat (computeStart now)))
        "end" (isoformat (computeEnd (computeStart now) H)) := by
  have hne : H ≠ 0 := by omega
  have hmode : forecastMode cfg = true := by
    simp [forecastMode, natOptTruthy, hH, hne]
  simp [requestParams, hmode, hH, _append_time_params, isoformat_ne_empty]

/-- C1 counterexample: at a concrete forecast configuration with horizon 2 and
a local time on day 10, the issued request carries start equal to midnight of
the previous day (timestamp 777600, not the current-day midnight 864000) and
end minus start equal to 3 days, not the 2 days the claim requires. -/
theorem c1_counterexample :
    (async_update cfgC1 none nowC1 .timeout initEntityState).request
      = some (buildRequest cfgC1 nowC1 1 2) ∧
    dictLookup (buildRequest cfgC1 nowC1 1 2).params "start" = some (isoformat 777600) ∧
    dictLookup (buildRequest cfgC1 nowC1 1 2).params "end" = some (isoformat 1036800) ∧
    localMidnight nowC1 = 864000 ∧
    isoformat 777600 ≠ isoformat 864000 ∧
    (1036800 - 777600 : ℤ) = 3 * secondsPerDay ∧
    (3 * secondsPerDay : ℤ) ≠ 2 * secondsPerDay := by decide

/-- C1 amended: for every configuration with a forecast horizon H in [1,5],
the refresh request includes both start and end, where start equals local
midnight of the PREVIOUS day (one-day backward shift) and end minus start
equals exactly H + 1 days; when no forecast horizon is configured, both
parameters are absent. -/
theorem c1_time_window (cfg : EntityConfig) (zs : Option ZoneAttributes)
    (now : LocalTime) (fetch : FetchResult) (st : EntityState) (lat lon : ℚ)
    (hloc : cfg.location = some ⟨some lat, some lon⟩)
    (hlat : lat ≠ 0) (hlon : lon ≠ 0) :
    (async_update cfg zs now fetch st).request = some (buildRequest cfg now lat lon) ∧
    (∀ H : ℕ, cfg.forecast_days = some H → 1 ≤ H → H ≤ 5 →
      dictLookup (buildRequest cfg now lat lon).params "start"
        = some (isoformat (localMidnight now - secondsPerDay)) ∧
      dictLookup (buildRequest cfg now lat lon).params "end"
        = some (isoformat ((localMidnight now - secondsPerDay)
                            + ((H : ℤ) + 1) * secondsPerDay))) ∧
    (cfg.forecast_days = none →
      hasKey (buildRequest cfg now lat lon).params "start" = false ∧
      hasKey (buildRequest cfg now lat lon).params "end" = false) := by
  have hre := resolveCoordinates_location cfg zs lat lon hloc
  refine ⟨async_update_request_eq cfg zs now fetch st lat lon hre hlat hlon, ?_, ?_⟩
  · intro H hH h1 _
    have hs : computeStart now = localMidnight now - secondsPerDay := by
      unfold computeStart localMidnight; ring
    have he : computeEnd (computeStart now) H
        = (localMidnight now - secondsPerDay) + ((H : ℤ) + 1) * secondsPerDay := by
      rw [computeEnd, hs]
    rw [show (buildRequest cfg now lat lon).params = requestParams cfg now lat lon from rfl,
        requestParams_forecast cfg now lat lon H hH h1]
    constructor
    · rw [dictLookup_dictInsert_ne _ _ _ _ (by decide), dictLookup_dictInsert_self, hs]
    · rw [dictLookup_dictInsert_self, he]
  · intro hnone
    have hmode : forecastMode cfg = false := by simp [forecastMode, natOptTruthy, hnone]
    have hbase : requestParams cfg now lat lon
        = _get_query_params (joinComma cfg.severity) (joinComma cfg.message_type) lat lon := by
      simp [requestParams, hmode]
    rw [show (buildRequest cfg now lat lon).params = requestParams cfg now lat lon from rfl,
        hbase]
    exact ⟨rfl, rfl⟩

/-- C1 witness: the amended window facts hold at the concrete forecast
configuration with horizon 2 on day 10. -/
theorem c1_time_window_witness :
    dictLookup (buildRequest cfgC1 nowC1 1 2).params "start"
      = some (isoformat (localMidnight nowC1 - secondsPerDay)) ∧
    dictLookup (buildRequest cfgC1 nowC1 1 2).params "end"
      = some (isoformat ((localMidnight nowC1 - secondsPerDay)
                          + (((2 : ℕ) : ℤ) + 1) * secondsPerDay)) :=
  (c1_time_window cfgC1 none nowC1 .timeout initEntityState 1 2 rfl
      (by decide) (by decide)).2.1 2 rfl (by decide) (by decide)

/-- C5: for every pair of successful polls, the second returning feature list
F2 whose complete sent timestamps are disjoint from those of the first list
F1, the resulting updates mapping equals exactly the projection of F2 and
holds no key contributed by any complete feature of F1. -/
theorem c5_snapshot_replacement (cfg : EntityConfig) (zs : Option ZoneAttributes)
    (now : LocalTime) (st0 : EntityState) (F1 F2 : List Feature) (lat lon : ℚ)
    (hre : resolveCoordinates cfg zs = (some lat, some lon))
    (hlat : lat ≠ 0) (hlon : lon ≠ 0)
    (hdisj : ∀ g1 ∈ F1, ∀ g2 ∈ F2, completeFeature g1 = true →
      completeFeature g2 = true → featSent g1 ≠ featSent g2) :
    ((async_update cfg zs now (.response 200 ⟨some F2⟩)
        (async_update cfg zs now (.response 200 ⟨some F1⟩) st0).st).st.updates
      = (processFeatures F2).2) ∧
    (∀ g1 ∈ F1, completeFeature g1 = true →
      hasKey (async_update cfg zs now (.response 200 ⟨some F2⟩)
          (async_update cfg zs now (.response 200 ⟨some F1⟩) st0).st).st.updates
        ((featSent g1).getD "") = false) := by
  rw [async_update_success_eq cfg zs now ⟨some F2⟩ _ lat lon hre hlat hlon]
  refine ⟨rfl, ?_⟩
  intro g1 hg1 hc1
  by_contra hk
  rw [Bool.not_eq_false] at hk
  rcases foldl_featureStep_key_src F2 (none, []) _ hk with habs | ⟨g2, hg2, hc2, hkey⟩
  · simp [hasKey, dictLookup] at habs
  · have hc1e := hc1
    simp only [completeFeature, Bool.and_eq_true] at hc1e
    have hc2e := hc2
    simp only [completeFeature, Bool.and_eq_true] at hc2e
    rcases (strOptTruthy_iff _).mp hc1e.2 with ⟨s1, hs1, _⟩
    rcases (strOptTruthy_iff _).mp hc2e.2 with ⟨s2, hs2, _⟩
    rw [hs1, hs2] at hkey
    simp only [Option.getD_some] at hkey
    exact hdisj g1 hg1 g2 hg2 hc1 hc2 (by rw [hs1, hs2, hkey])

/-- C5 witness: replacing the snapshot of a poll of timestamp t1 by a poll of
the disjoint timestamp t2 leaves exactly the t2 projection and no t1 key. -/
theorem c5_witness :
    ((async_update cfgActive none nowC1 (.response 200 ⟨some [wFeatB]⟩)
        (async_update cfgActive none nowC1 (.response 200 ⟨some [wFeatA]⟩)
          initEntityState).st).st.updates = (processFeatures [wFeatB]).2) ∧
    hasKey (async_update cfgActive none nowC1 (.response 200 ⟨some [wFeatB]⟩)
        (async_update cfgActive none nowC1 (.response 200 ⟨some [wFeatA]⟩)
          initEntityState).st).st.updates ((featSent wFeatA).getD "") = false :=
  ⟨(c5_snapshot_replacement cfgActive none nowC1 initEntityState [wFeatA] [wFeatB]
      1 2 rfl (by decide) (by decide) (by decide)).1,
   (c5_snapshot_replacement cfgActive none nowC1 initEntityState [wFeatA] [wFeatB]
      1 2 rfl (by decide) (by decide) (by decide)).2 wFeatA (by simp) (by decide)⟩

theorem processFeatures_first_complete (pre post : List Feature) (f : Feature)
    (hpre : ∀ g ∈ pre, completeFeature g = false) (hf : completeFeature f = true) :
    (processFeatures (pre ++ f :: post)).1 = (featHeadline f).getD "" := by
  have hcc := hf
  simp only [completeFeature, Bool.and_eq_true] at hcc
  rcases (strOptTruthy_iff _).mp hcc.1 with ⟨u, hu, hune⟩
  unfold processFeatures
  rw [List.foldl_append, foldl_featureStep_incomplete pre _ hpre, List.foldl_cons]
  have h2 : featureStep ((none : Option String), ([] : List (String × String))) f
      = (featHeadline f,
         dictInsert [] ((featSent f).getD "") ((featHeadline f).getD "")) := by
    simp [featureStep, hf, strOptTruthy]
  rw [h2, foldl_featureStep_fst_truthy post _ hcc.1]
  rw [hu]
  simp [pyOrStr, hune]

/-- C6 counterexample: a first feature whose headline field is present but
empty is skipped by the truthiness test, so the primary headline is B from the
second feature (not the first-feature headline the claim requires) and no t1
entry exists in updates. -/
theorem c6_counterexample :
    (featHeadline c6f1).isSome = true ∧ (featSent c6f1).isSome = true ∧
    (async_update cfgActive none nowC1 (.response 200 ⟨some [c6f1, c6f2]⟩)
        initEntityState).st.state = some "B" ∧
    featHeadline c6f1 = some "" ∧ ("B" : String) ≠ "" ∧
    dictLookup (async_update cfgActive none nowC1 (.response 200 ⟨some [c6f1, c6f2]⟩)
        initEntityState).st.updates "t1" = none := by decide

/-- C6 amended: for every successful poll, the primary headline equals the
headline of the first feature whose headline and sent are both present and
non-empty (Python truthiness), and updates contains an entry for every such
truthy-complete feature. -/
theorem c6_primary_headline (cfg : EntityConfig) (zs : Option ZoneAttributes)
    (now : LocalTime) (st : EntityState) (lat lon : ℚ)
    (pre post : List Feature) (f : Feature)
    (hre : resolveCoordinates cfg zs = (some lat, some lon))
    (hlat : lat ≠ 0) (hlon : lon ≠ 0)
    (hpre : ∀ g ∈ pre, completeFeature g = false) (hf : completeFeature f = true) :
    ((async_update cfg zs now (.response 200 ⟨some (pre ++ f :: post)⟩) st).st.state
      = some ((featHeadline f).getD "")) ∧
    (∀ g ∈ pre ++ f :: post, completeFeature g = true →
      hasKey (async_update cfg zs now
          (.response 200 ⟨some (pre ++ f :: post)⟩) st).st.updates
        ((featSent g).getD "") = true) := by
  rw [async_update_success_eq cfg zs now ⟨some (pre ++ f :: post)⟩ st lat lon hre hlat hlon]
  constructor
  · show some (processFeatures (pre ++ f :: post)).1 = _
    rw [processFeatures_first_complete pre post f hpre hf]
  · intro g hg hcg
    exact foldl_featureStep_mem_hasKey _ _ g hg hcg

/-- C6 witness: with an incomplete feature first, the complete feature A is
the primary headline and the later complete feature B has an updates entry. -/
theorem c6_witness :
    ((async_update cfgActive none nowC1
        (.response 200 ⟨some ([wIncomplete] ++ wFeatA :: [wFeatB])⟩)
        initEntityState).st.state = some ((featHeadline wFeatA).getD "")) ∧
    hasKey (async_update cfgActive none nowC1
        (.response 200 ⟨some ([wIncomplete] ++ wFeatA :: [wFeatB])⟩)
        initEntityState).st.updates ((featSent wFeatB).getD "") = true :=
  ⟨(c6_primary_headline cfgActive none nowC1 initEntityState 1 2
      [wIncomplete] [wFeatB] wFeatA rfl (by decide) (by decide)
      (by decide) (by decide)).1,
   (c6_primary_headline cfgActive none nowC1 initEntityState 1 2
      [wIncomplete] [wFeatB] wFeatA rfl (by decide) (by decide)
      (by decide) (by decide)).2 wFeatB (by simp) (by decide)⟩

theorem processFeatures_skip (pre post : List Feature) (f : Feature)
    (hf : completeFeature f = false) :
    processFeatures (pre ++ f :: post) = processFeatures (pre ++ post) := by
  unfold processFeatures
  rw [List.foldl_append, List.foldl_append, List.foldl_cons,
      featureStep_incomplete _ _ hf]

/-- C7: a feature missing headline or missing sent contributes nothing at all
to a successful poll (dropping it leaves the refresh result unchanged, so it
is neither an updates entry nor the primary headline), and a body with no
features array yields a successful poll with the empty mapping and the blank
state. -/
theorem c7_incomplete_skipped (cfg : EntityConfig) (zs : Option ZoneAttributes)
    (now : LocalTime) (st : EntityState) (lat lon : ℚ)
    (pre post : List Feature) (f : Feature)
    (hre : resolveCoordinates cfg zs = (some lat, some lon))
    (hlat : lat ≠ 0) (hlon : lon ≠ 0)
    (hf : featHeadline f = none ∨ featSent f = none) :
    (async_update cfg zs now (.response 200 ⟨some (pre ++ f :: post)⟩) st
      = async_update cfg zs now (.response 200 ⟨some (pre ++ post)⟩) st) ∧
    ((async_update cfg zs now (.response 200 ⟨none⟩) st).outcome = true ∧
     (async_update cfg zs now (.response 200 ⟨none⟩) st).st.updates = [] ∧
     (async_update cfg zs now (.response 200 ⟨none⟩) st).st.state = some " ") := by
  have hcf : completeFeature f = false := by
    rcases hf with h | h <;> simp [completeFeature, strOptTruthy, h]
  constructor
  · rw [async_update_success_eq cfg zs now ⟨some (pre ++ f :: post)⟩ st lat lon hre hlat hlon,
        async_update_success_eq cfg zs now ⟨some (pre ++ post)⟩ st lat lon hre hlat hlon]
    simp [processFeatures_skip pre post f hcf]
  · rw [async_update_success_eq cfg zs now ⟨none⟩ st lat lon hre hlat hlon]
    exact ⟨rfl, rfl, rfl⟩

/-- C7 witness: dropping a sent-less feature leaves the concrete refresh
unchanged, and a featureless body gives a successful empty poll. -/
theorem c7_witness :
    (async_update cfgActive none nowC1 (.response 200 ⟨some ([] ++ wIncomplete :: [wFeatB])⟩)
        stX = async_update cfgActive none nowC1 (.response 200 ⟨some ([] ++ [wFeatB])⟩) stX) ∧
    ((async_update cfgActive none nowC1 (.response 200 ⟨none⟩) stX).outcome = true ∧
     (async_update cfgActive none nowC1 (.response 200 ⟨none⟩) stX).st.updates = [] ∧
     (async_update cfgActive none nowC1 (.response 200 ⟨none⟩) stX).st.state = some " ") :=
  c7_incomplete_skipped cfgActive none nowC1 stX 1 2 [] [wFeatB] wIncomplete
    rfl (by decide) (by decide) (Or.inl rfl)

/-- C8: with a zone-based configuration, a zone the registry reports absent or
a zone lacking latitude or longitude attributes makes the refresh return a
failure outcome with no HTTP request issued and the prior snapshot unchanged. -/
theorem c8_zone_failure (cfg : EntityConfig) (zs : Option ZoneAttributes)
    (now : LocalTime) (fetch : FetchResult) (st : EntityState)
    (hloc : cfg.location = none) (hzone : cfg.zone.isSome = true)
    (hfail : zs = none ∨ ∃ attrs, zs = some attrs ∧
      (attrs.latitude = none ∨ attrs.longitude = none)) :
    async_update cfg zs now fetch st = ⟨false, st, none⟩ := by
  obtain ⟨z, hz⟩ := Option.isSome_iff_exists.mp hzone
  have hre : resolveCoordinates cfg zs = (none, none) := by
    rcases hfail with rfl | ⟨attrs, rfl, hattr⟩
    · simp [resolveCoordinates, hloc, hz, _get_zone_lat_long]
    · rcases hattr with h | h <;>
        simp [resolveCoordinates, hloc, hz, _get_zone_lat_long, h, ratOptTruthy]
  simp [async_update, hre]

/-- C8 witness: the concrete zone configuration with an absent zone aborts
with no request and an unchanged snapshot. -/
theorem c8_witness :
    async_update cfgZone none nowC1 .timeout stX = ⟨false, stX, none⟩ :=
  c8_zone_failure cfgZone none nowC1 .timeout stX rfl rfl (Or.inl rfl)

/-- C9: two refresh calls within the five-minute minimum interval perform at
most one fetch: the second call is a no-op that issues nothing (outcome none)
and leaves the throttle state and entity state exactly as after the first. -/
theorem c9_throttle (cfg : EntityConfig) (zs : Option ZoneAttributes)
    (t1 t2 : ℤ) (now1 now2 : LocalTime) (fetch1 fetch2 : FetchResult)
    (st0 : EntityState)
    (h : t2 - t1 < MIN_TIME_BETWEEN_UPDATES) :
    throttledUpdate cfg zs t2 now2 fetch2
        (throttledUpdate cfg zs t1 now1 fetch1 ⟨none⟩ st0).1
        (throttledUpdate cfg zs t1 now1 fetch1 ⟨none⟩ st0).2.1
      = ((throttledUpdate cfg zs t1 now1 fetch1 ⟨none⟩ st0).1,
         (throttledUpdate cfg zs t1 now1 fetch1 ⟨none⟩ st0).2.1, none) := by
  have h1 : (throttledUpdate cfg zs t1 now1 fetch1 ⟨none⟩ st0).1 = ⟨some t1⟩ := by
    simp [throttledUpdate]
  rw [h1]
  have hdec : decide (MIN_TIME_BETWEEN_UPDATES ≤ t2 - t1) = false :=
    decide_eq_false (not_le.mpr h)
  simp [throttledUpdate, hdec]

/-- C9 witness: calls at wall-clock seconds 0 and 100 at a concrete
configuration: the second is a no-op with no fetch. -/
theorem c9_witness :
    throttledUpdate cfgActive none 100 nowC1 .timeout
        (throttledUpdate cfgActive none 0 nowC1 .timeout ⟨none⟩ initEntityState).1
        (throttledUpdate cfgActive none 0 nowC1 .timeout ⟨none⟩ initEntityState).2.1
      = ((throttledUpdate cfgActive none 0 nowC1 .timeout ⟨none⟩ initEntityState).1,
         (throttledUpdate cfgActive none 0 nowC1 .timeout ⟨none⟩ initEntityState).2.1,
         none) :=
  c9_throttle cfgActive none 0 100 nowC1 nowC1 .timeout .timeout initEntityState
    (by decide)

/-- C10: a resolved latitude or longitude equal to 0, whether from the static
location or from zone attributes, is treated as unresolved by the truthiness
test: the refresh aborts with no HTTP request and an unchanged snapshot. -/
theorem c10_zero_coordinates (cfg : EntityConfig) (zs : Option ZoneAttributes)
    (now : LocalTime) (fetch : FetchResult) (st : EntityState)
    (h : (∃ loc, cfg.location = some loc ∧
            (loc.latitude = some 0 ∨ loc.longitude = some 0)) ∨
         (cfg.location = none ∧ (∃ z, cfg.zone = some z) ∧
          ∃ attrs, zs = some attrs ∧
            (attrs.latitude = some 0 ∨ attrs.longitude = some 0))) :
    async_update cfg zs now fetch st = ⟨false, st, none⟩ := by
  rcases h with ⟨loc, hloc, hzero⟩ | ⟨hloc, ⟨z, hz⟩, attrs, hzs, hzero⟩
  · obtain ⟨olat, olon⟩ := loc
    simp only [] at hzero
    have hre : resolveCoordinates cfg zs = (olat, olon) := by
      simp [resolveCoordinates, hloc]
    rcases hzero with rfl | rfl
    · cases olon with
      | none => simp [async_update, hre]
      | some y => simp [async_update, hre]
    · cases olat with
      | none => simp [async_update, hre]
      | some x => simp [async_update, hre]
  · have hre : resolveCoordinates cfg zs = (none, none) := by
      rcases hzero with h0 | h0 <;>
        simp [resolveCoordinates, hloc, hz, _get_zone_lat_long, hzs, h0, ratOptTruthy]
    simp [async_update, hre]

/-- C10 witness: the concrete configuration whose static latitude is 0 aborts
with no request and an unchanged snapshot. -/
theorem c10_witness :
    async_update cfgZeroLat none nowC1 .timeout stX = ⟨false, stX, none⟩ :=
  c10_zero_coordinates cfgZeroLat none nowC1 .timeout stX
    (Or.inl ⟨⟨some 0, some 2⟩, rfl, Or.inl rfl⟩)
